import Mathlib

/-!
Verification development for the airport-management backend (`src/app.py`).

The Python application is a thin CRUD layer over a relational store.  We give
a shallow embedding of its data model and of the operations the specification
claims speak about: `calculate_price`, `register`, `create_flight`,
`update_flight`, `create_booking` and `import_employees`.

Modelling conventions, matching the spec's scoping rules:
  * The persisted database is a record of lists of rows (`DB`).  A request
    handler returns `Except ApiError (result × DB)`; an error return leaves
    the store untouched, which models the framework's rollback of an
    uncommitted session at request teardown (no handler commits before an
    error return in the source).
  * JSON request fields are `Option` values; `none` is an absent key.
    Python truthiness of a field is `truthyStr` / `truthyInt`.
  * Python `int` is `Int`; autoincrement primary keys are `nextId`.
  * `werkzeug`'s password hashing is an external collaborator excluded by the
    spec; it is modelled as an abstract tagging function.
  * The float expression `int(base * 0.8)` in `calculate_price` is embedded
    as `base * 4 / 5` (natural floor division): for `base = 5000 * n` the
    binary64 computation is exact, so the floor is the computed value.
  * Timestamps come from the excluded clock; only `OtpCode.created_at` is
    kept (the OTP lookup orders by it), as an abstract `Nat`.
-/

/-- Python truthiness of an optional JSON string field: present and nonempty. -/

def truthyStr : Option String → Bool
  | none => false
  | some s => !(s == "")

/-- Python truthiness of an optional JSON integer field: present and nonzero. -/

def truthyInt : Option Int → Bool
  | none => false
  | some v => !(v == 0)

/-- Embedding of Python `str.lower()` (ASCII case folding suffices here). -/

def pyLower (s : String) : String := String.mk (s.data.map Char.toLower)

/-- Embedding of Python `str.endswith(pat)`. -/

def pyEndsWith (s pat : String) : Bool := pat.data.isSuffixOf s.data

/-- Fresh autoincrement primary key: one more than the largest id in use. -/

def nextId (ids : List Nat) : Nat := ids.foldr (fun a b => max a b) 0 + 1

/-- External werkzeug primitive `generate_password_hash`, excluded from scope
by the spec; modelled as an abstract tagging function. -/

def generate_password_hash (password : String) : String := "hashed:" ++ password

/-- Row of the `user` table (`class User`). -/

structure User where
  id : Nat
  name : String
  email : String
  password_hash : String
  role : String
  age : Option Int
  phone : Option String
  is_verified : Bool
deriving DecidableEq, Repr

/-- Row of the `otp_code` table (`class OtpCode`). -/

structure OtpCode where
  id : Nat
  phone : String
  code : String
  created_at : Nat
  is_used : Bool
deriving DecidableEq, Repr

/-- Row of the `flight` table (`class Flight`). -/

structure Flight where
  id : Nat
  code : String
  source : String
  destination : String
  departure_time : String
  arrival_time : String
  total_seats : Int
  available_seats : Int
  status : String
deriving DecidableEq, Repr

/-- Row of the `booking` table (`class Booking`). -/

structure Booking where
  id : Nat
  user_id : Nat
  flight_id : Nat
  num_seats : Int
  status : String
  base_price : Nat
  final_price : Nat
  discount_reason : Option String
deriving DecidableEq, Repr

/-- The persisted store: one list of rows per table the claims touch. -/

structure DB where
  users : List User
  otps : List OtpCode
  flights : List Flight
  bookings : List Booking
deriving DecidableEq, Repr

/-- The empty store produced by `db.create_all()`. -/

def emptyDB : DB := { users := [], otps := [], flights := [], bookings := [] }

deriving instance DecidableEq for Except

/-- Error taxonomy of the API; one constructor per kind of error response the
source returns.  `fileNotFound` is the `import-employees` missing-file
response, kept separate from `notFound` because the source gives it HTTP 400
while `get_or_404`-style lookups give 404. -/

inductive ApiError where
  | validationError
  | duplicateEmail
  | invalidOtp
  | invalidAirport
  | routeError
  | insufficientSeats
  | invalidCredentials
  | notFound
  | fileNotFound
deriving DecidableEq, Repr

/-- HTTP status code each error surfaces with in the source. -/

def ApiError.status : ApiError → Nat
  | .validationError => 400
  | .duplicateEmail => 400
  | .invalidOtp => 400
  | .invalidAirport => 400
  | .routeError => 400
  | .insufficientSeats => 400
  | .invalidCredentials => 401
  | .notFound => 404
  | .fileNotFound => 400

/-- Whether an error is the 404 `NotFoundError` of the spec's taxonomy. -/

def ApiError.isNotFound : ApiError → Bool
  | .notFound => true
  | _ => false

/-- Constant `BASE_PRICE_PER_SEAT` from the source. -/

def BASE_PRICE_PER_SEAT : Nat := 5000

/-- Constant `OWNER_ADMIN_EMAIL` from the source. -/

def OWNER_ADMIN_EMAIL : String := "admin@mail.com"

/-- The fixed discount-description string of `calculate_price`. -/

def studentDiscountReason : String := "Student .edu discount (20%)"

/-- Embedding of `calculate_price(user, num_seats)`.  `int(base * 0.8)` is
`base * 4 / 5` (exact in binary64 for these products, hence the floor). -/

def calculate_price (user : User) (num_seats : Nat) : Nat × Nat × Option String :=
  let base := BASE_PRICE_PER_SEAT * num_seats
  if pyEndsWith (pyLower user.email) ".edu" then
    (base, base * 4 / 5, some studentDiscountReason)
  else
    (base, base, none)

/-- First element of a list satisfying `p`, together with its position.  This
models an ORM lookup whose in-session mutation hits exactly that one row. -/

def findWithIdx (p : α → Bool) : List α → Option (Nat × α)
  | [] => none
  | x :: xs => if p x then some (0, x) else (findWithIdx p xs).map (fun r => (r.1 + 1, r.2))

/-- The `OtpCode.query.filter_by(...)` predicate of `register`: same phone,
same code, not yet used. -/

def matchesOtp (phone code : String) (o : OtpCode) : Bool :=
  o.phone == phone && o.code == code && !o.is_used

/-- Embedding of the OTP lookup of `register`: among unused records matching
phone and code, the one with the greatest `created_at` (ties resolved to the
earlier row, the order `ORDER BY created_at DESC` leaves unspecified),
together with its position in the table. -/

def latestOtpIdx (phone code : String) : List OtpCode → Option (Nat × OtpCode)
  | [] => none
  | o :: rest =>
    match latestOtpIdx phone code rest with
    | none => if matchesOtp phone code o then some (0, o) else none
    | some (i, b) =>
      if matchesOtp phone code o then
        if b.created_at > o.created_at then some (i + 1, b) else some (0, o)
      else
        some (i + 1, b)

/-- JSON value submitted for `age`: either one that `int(...)` converts, or
one on which `int(...)` raises `ValueError`. -/

inductive AgeField where
  | num (n : Int)
  | bad
deriving DecidableEq, Repr

/-- The age-conversion step of `register`: absent means no age, a bad value
is the caught `ValueError` answered with a 400. -/

def parse_age : Option AgeField → Except ApiError (Option Int)
  | none => .ok none
  | some (.num n) => .ok (some n)
  | some .bad => .error .validationError

/-- JSON body of `POST /api/register`. -/

structure RegisterReq where
  name : Option String
  email : Option String
  password : Option String
  phone : Option String
  age : Option AgeField
  otp : Option String
deriving DecidableEq, Repr

/-- The `all([name, email, password, phone, otp_code])` required-field check. -/

def registerReqOk (req : RegisterReq) : Bool :=
  truthyStr req.name && truthyStr req.email && truthyStr req.password &&
    truthyStr req.phone && truthyStr req.otp

/-- Embedding of the `register` handler.  The in-session `otp.is_used = True`
mutation of the source (`db.otps.set i ...` here) reaches the store only on
the success path: the age-parse failure returns before any commit and the
framework rolls the session back at teardown. -/

def register (db : DB) (req : RegisterReq) : Except ApiError (User × DB) :=
  if !(registerReqOk req) then .error .validationError
  else if db.users.any (fun u => u.email == req.email.getD "") then .error .duplicateEmail
  else
    match latestOtpIdx (req.phone.getD "") (req.otp.getD "") db.otps with
    | none => .error .invalidOtp
    | some (i, otpRec) =>
      match parse_age req.age with
      | .error e => .error e
      | .ok age =>
        let user : User := {
          id := nextId (db.users.map (fun u => u.id)),
          name := req.name.getD "",
          email := req.email.getD "",
          password_hash := generate_password_hash (req.password.getD ""),
          role := if pyLower (req.email.getD "") == pyLower OWNER_ADMIN_EMAIL
                  then "admin" else "passenger",
          age := age,
          phone := some (req.phone.getD ""),
          is_verified := true }
        .ok (user, { db with
          users := db.users ++ [user],
          otps := db.otps.set i { otpRec with is_used := true } })

/-- JSON body of `POST /api/flights`. -/

structure FlightReq where
  code : Option String
  source : Option String
  destination : Option String
  departure_time : Option String
  arrival_time : Option String
  total_seats : Option Int
  status : Option String
deriving DecidableEq, Repr

/-- The `all(data.get(k) for k in required)` check of `create_flight`. -/

def flightReqOk (req : FlightReq) : Bool :=
  truthyStr req.code && truthyStr req.source && truthyStr req.destination &&
    truthyStr req.departure_time && truthyStr req.arrival_time && truthyInt req.total_seats

/-- Embedding of the `create_flight` handler.  `airports` is the code set the
directory file provides to `load_airports`. -/

def create_flight (airports : List String) (db : DB) (req : FlightReq) :
    Except ApiError (Flight × DB) :=
  if !(flightReqOk req) then .error .validationError
  else if !(airports.contains (req.source.getD "")) ||
      !(airports.contains (req.destination.getD "")) then
    .error .invalidAirport
  else if req.source.getD "" == req.destination.getD "" then .error .routeError
  else
    let flight : Flight := {
      id := nextId (db.flights.map (fun f => f.id)),
      code := req.code.getD "",
      source := req.source.getD "",
      destination := req.destination.getD "",
      departure_time := req.departure_time.getD "",
      arrival_time := req.arrival_time.getD "",
      total_seats := req.total_seats.getD 0,
      available_seats := req.total_seats.getD 0,
      status := req.status.getD "On Time" }
    .ok (flight, { db with flights := db.flights ++ [flight] })

/-- JSON body of `PUT /api/flights/<id>`: every field optional, present
fields overwritten verbatim by the `setattr` loop. -/

structure FlightUpdateReq where
  code : Option String
  source : Option String
  destination : Option String
  departure_time : Option String
  arrival_time : Option String
  total_seats : Option Int
  available_seats : Option Int
  status : Option String
deriving DecidableEq, Repr

/-- Embedding of the `update_flight` handler: airport codes are revalidated
when present, every other present field is stored unchecked — in particular
the seat counters. -/

def update_flight (airports : List String) (db : DB) (fid : Nat) (req : FlightUpdateReq) :
    Except ApiError (Flight × DB) :=
  match findWithIdx (fun f => f.id == fid) db.flights with
  | none => .error .notFound
  | some (i, flight) =>
    if (match req.source with
        | some s => !(airports.contains s)
        | none => false) then .error .invalidAirport
    else if (match req.destination with
        | some d => !(airports.contains d)
        | none => false) then .error .invalidAirport
    else
      let flight' : Flight := {
        id := flight.id,
        code := req.code.getD flight.code,
        source := req.source.getD flight.source,
        destination := req.destination.getD flight.destination,
        departure_time := req.departure_time.getD flight.departure_time,
        arrival_time := req.arrival_time.getD flight.arrival_time,
        total_seats := req.total_seats.getD flight.total_seats,
        available_seats := req.available_seats.getD flight.available_seats,
        status := req.status.getD flight.status }
      .ok (flight', { db with flights := db.flights.set i flight' })

/-- JSON body of `POST /api/bookings`; `user_id` and `flight_id` are read
with `data[...]` (required), `num_seats` with `data.get("num_seats", 1)`. -/

structure BookingReq where
  user_id : Nat
  flight_id : Nat
  num_seats : Option Int
deriving DecidableEq, Repr

/-- Embedding of the `create_booking` handler.  The booking insert and the
seat decrement are both part of the single returned store — the one-commit
atomicity of the source. -/

def create_booking (db : DB) (req : BookingReq) : Except ApiError (Booking × DB) :=
  match db.users.find? (fun u => u.id == req.user_id) with
  | none => .error .notFound
  | some user =>
    match findWithIdx (fun f => f.id == req.flight_id) db.flights with
    | none => .error .notFound
    | some (i, flight) =>
      if req.num_seats.getD 1 ≤ 0 then .error .validationError
      else if flight.available_seats < req.num_seats.getD 1 then .error .insufficientSeats
      else
        let booking : Booking := {
          id := nextId (db.bookings.map (fun b => b.id)),
          user_id := user.id,
          flight_id := flight.id,
          num_seats := req.num_seats.getD 1,
          status := "Confirmed",
          base_price := (calculate_price user (req.num_seats.getD 1).toNat).1,
          final_price := (calculate_price user (req.num_seats.getD 1).toNat).2.1,
          discount_reason := (calculate_price user (req.num_seats.getD 1).toNat).2.2 }
        .ok (booking, { db with
          flights := db.flights.set i
            { flight with available_seats := flight.available_seats - req.num_seats.getD 1 },
          bookings := db.bookings ++ [booking] })

/-- One row of the employee-import CSV, as `csv.DictReader` hands it to the
loop: `none` is an absent column (so `row.get(k, default)` falls back). -/

structure CsvRow where
  name : Option String
  email : Option String
  password : Option String
  role : Option String
deriving DecidableEq, Repr

/-- The user record the import loop builds for a row it creates. -/

def mkImportUser (users : List User) (row : CsvRow) : User :=
  { id := nextId (users.map (fun u => u.id)),
    name := row.name.getD "",
    email := row.email.getD "",
    password_hash := generate_password_hash (row.password.getD "password123"),
    role := row.role.getD "staff",
    age := none,
    phone := none,
    is_verified := true }

/-- The row loop of `import_employees`: returns the user table after the
batch together with the `created` and `skipped` counters.  The duplicate
check sees rows added earlier in the same batch, as the autoflushing session
does in the source. -/

def importRows (users : List User) : List CsvRow → List User × Nat × Nat
  | [] => (users, 0, 0)
  | row :: rest =>
    if !(truthyStr row.email) || !(truthyStr row.name) then importRows users rest
    else if users.any (fun u => u.email == row.email.getD "") then
      ((importRows users rest).1, (importRows users rest).2.1, (importRows users rest).2.2 + 1)
    else
      ((importRows (users ++ [mkImportUser users row]) rest).1,
        (importRows (users ++ [mkImportUser users row]) rest).2.1 + 1,
        (importRows (users ++ [mkImportUser users row]) rest).2.2)

/-- Embedding of the `import_employees` handler.  `source` is the content of
the CSV file at the requested path, `none` when no file exists there. -/

def import_employees (db : DB) (path : Option String) (source : Option (List CsvRow)) :
    Except ApiError ((Nat × Nat) × DB) :=
  if !(truthyStr path) then .error .validationError
  else
    match source with
    | none => .error .fileNotFound
    | some rows =>
      let r := importRows db.users rows
      .ok ((r.2.1, r.2.2), { db with users := r.1 })

/-- A request against the flight-inventory/booking surface, for stating the
reachable-state seat invariant. -/

inductive Op where
  | createFlight (req : FlightReq)
  | updateFlight (fid : Nat) (req : FlightUpdateReq)
  | createBooking (req : BookingReq)
deriving DecidableEq, Repr

/-- The store after one request: the handler's store on success, the
unchanged store on an error response. -/

def applyOp (airports : List String) (db : DB) (op : Op) : DB :=
  match op with
  | .createFlight req =>
    match create_flight airports db req with
    | .ok r => r.2
    | .error _ => db
  | .updateFlight fid req =>
    match update_flight airports db fid req with
    | .ok r => r.2
    | .error _ => db
  | .createBooking req =>
    match create_booking db req with
    | .ok r => r.2
    | .error _ => db

/-- The store after a sequence of requests. -/

def runOps (airports : List String) (db : DB) (ops : List Op) : DB :=
  ops.foldl (applyOp airports) db

/-- The per-flight seat invariant of the spec. -/

def flightInv (f : Flight) : Prop :=
  0 ≤ f.available_seats ∧ f.available_seats ≤ f.total_seats

instance (f : Flight) : Decidable (flightInv f) := by
  unfold flightInv; infer_instance

/-- The spec's invariant, over every flight of the store. -/

def dbFlightInv (db : DB) : Prop := ∀ f ∈ db.flights, flightInv f

instance (db : DB) : Decidable (dbFlightInv db) := by
  unfold dbFlightInv; infer_instance

/-- Requests that never touch the seat counters inconsistently: flight
creation with a nonnegative seat total, and booking creation.  Flight update
is excluded — the source applies no consistency check there. -/

def seatSafeOp : Op → Prop
  | .createFlight req => 0 ≤ req.total_seats.getD 0
  | .updateFlight _ _ => False
  | .createBooking _ => True

instance (op : Op) : Decidable (seatSafeOp op) := by
  cases op <;> unfold seatSafeOp <;> infer_instance

/-- The airport directory the source creates when no `airports.json` exists. -/

def sampleAirports : List String := ["DEL", "BOM", "DXB", "LHR", "JFK"]

/-- A registered passenger without a student email, for concrete runs. -/

def alice : User :=
  { id := 1, name := "Alice", email := "alice@mail.com",
    password_hash := generate_password_hash "alicepw", role := "passenger",
    age := some 30, phone := some "9999999999", is_verified := true }

/-- A registered passenger with a `.edu` email, for concrete runs. -/

def bobEdu : User :=
  { id := 2, name := "Bob", email := "bob@university.edu",
    password_hash := generate_password_hash "bobpw", role := "passenger",
    age := none, phone := some "8888888888", is_verified := true }

/-- The DEL-to-BOM ten-seat flight of the spec's worked scenario. -/

def flight10 : Flight :=
  { id := 1, code := "AI101", source := "DEL", destination := "BOM",
    departure_time := "2025-01-01T10:00", arrival_time := "2025-01-01T12:00",
    total_seats := 10, available_seats := 10, status := "On Time" }

/-- A store holding two passengers and the scenario flight. -/

def dbW : DB :=
  { users := [alice, bobEdu], otps := [], flights := [flight10], bookings := [] }

/-- The create-flight request of the spec's worked scenario. -/

def delBomReq : FlightReq :=
  { code := some "AI101", source := some "DEL",
    destination := some "BOM", departure_time := some "2025-01-01T10:00",
    arrival_time := some "2025-01-01T12:00", total_seats := some 10, status := none }

/-- A flight-update request body with every field absent. -/

def noFlightUpdate : FlightUpdateReq :=
  { code := none, source := none, destination := none,
    departure_time := none, arrival_time := none, total_seats := none,
    available_seats := none, status := none }

/-- An unused OTP record, for concrete runs. -/

def otp1 : OtpCode :=
  { id := 1, phone := "9999999999", code := "123456",
    created_at := 5, is_used := false }

/-- A store holding only `otp1`. -/

def dbOtp : DB := { emptyDB with otps := [otp1] }

/-- A well-formed registration request consuming `otp1`. -/

def regReq : RegisterReq :=
  { name := some "Carol", email := some "carol@mail.com",
    password := some "pw", phone := some "9999999999", age := some (.num 28),
    otp := some "123456" }

/-- An import row that names the admin role with a non-owner email. -/

def rowAdmin : CsvRow :=
  { name := some "Mallory", email := some "mallory@corp.com",
    password := some "pw", role := some "admin" }

/-- The user the import loop creates from `rowAdmin` on an empty store. -/

def malloryUser : User :=
  { id := 1, name := "Mallory", email := "mallory@corp.com",
    password_hash := generate_password_hash "pw", role := "admin", age := none,
    phone := none, is_verified := true }

/-- An import row with password and role columns absent. -/

def rowCarl : CsvRow :=
  { name := some "Carl", email := some "carl@mail.com",
    password := none, role := none }

/-- The booking Alice's three-seat request creates on `dbW`. -/

def booking3 : Booking :=
  { id := 1, user_id := 1, flight_id := 1, num_seats := 3, status := "Confirmed",
    base_price := 15000, final_price := 15000, discount_reason := none }

/-- The store after Alice's three-seat booking on `dbW`. -/

def dbWAfter : DB :=
  { dbW with
    flights := [{ flight10 with available_seats := 7 }],
    bookings := [booking3] }

/-- A store whose only OTP record is `otp1` already consumed. -/

def dbOtpUsed : DB := { emptyDB with otps := [{ otp1 with is_used := true }] }

/-- The user `regReq` creates on `dbOtp`. -/

def carolUser : User :=
  { id := 1, name := "Carol", email := "carol@mail.com",
    password_hash := generate_password_hash "pw", role := "passenger",
    age := some 28, phone := some "9999999999", is_verified := true }

/-- The store after `regReq` succeeds on `dbOtp`. -/

def dbOtpAfter : DB :=
  { dbOtp with users := [carolUser], otps := [{ otp1 with is_used := true }] }

/-- A store holding only Alice, for the duplicate-email run. -/

def dbAlice : DB := { emptyDB with users := [alice] }

/-- The store `rowAdmin` import produces from the empty store. -/

def dbMallory : DB := { emptyDB with users := [malloryUser] }

/-- A store for the spec's import scenario: Alice exists, two fresh rows and
one duplicate row are imported. -/

def importScenarioRows : List CsvRow :=
  [rowCarl,
   { name := some "Dana", email := some "dana@mail.com", password := some "dpw",
     role := some "staff" },
   { name := some "Eve", email := some "alice@mail.com", password := none, role := none }]

/-- The users created by the import scenario over `dbAlice`. -/

def carlImported : User :=
  { id := 2, name := "Carl", email := "carl@mail.com",
    password_hash := generate_password_hash "password123", role := "staff",
    age := none, phone := none, is_verified := true }

/-- The second user created by the import scenario over `dbAlice`. -/

def danaImported : User :=
  { id := 3, name := "Dana", email := "dana@mail.com",
    password_hash := generate_password_hash "dpw", role := "staff",
    age := none, phone := none, is_verified := true }

/-- The response and store the import scenario produces: created two,
skipped one. -/

def importScenarioResult : (Nat × Nat) × DB :=
  ((2, 1), { dbAlice with users := [alice, carlImported, danaImported] })

/-- The persisted store after a register request: the handler's store on
success, the unchanged store on an error response — the framework commits
nothing on the error paths and rolls the session back at teardown. -/

def registerState (db : DB) (req : RegisterReq) : DB :=
  match register db req with
  | .ok r => r.2
  | .error _ => db

example : pyEndsWith (pyLower "Bob@University.EDU") ".edu" = true := by decide

example : pyEndsWith (pyLower "alice@mail.com") ".edu" = false := by decide

theorem findWithIdx_eq_some {p : α → Bool} {l : List α} {i : Nat} {x : α}
    (h : findWithIdx p l = some (i, x)) : l[i]? = some x ∧ p x = true := by
  induction l generalizing i with
  | nil => simp [findWithIdx] at h
  | cons y ys ih =>
    rw [findWithIdx] at h
    split at h
    · simp only [Option.some.injEq, Prod.mk.injEq] at h
      obtain ⟨hi, hx⟩ := h
      subst hx
      simp only [← hi, List.getElem?_cons_zero, true_and]
      assumption
    · cases hr : findWithIdx p ys with
      | none => rw [hr] at h; simp at h
      | some r =>
        obtain ⟨j, z⟩ := r
        rw [hr] at h
        simp only [Option.map_some', Option.some.injEq, Prod.mk.injEq] at h
        obtain ⟨hi, hx⟩ := h
        subst hx
        simp only [← hi, List.getElem?_cons_succ]
        exact ih hr

theorem latestOtpIdx_eq_none {phone code : String} {l : List OtpCode}
    (h : latestOtpIdx phone code l = none) :
    ∀ o ∈ l, matchesOtp phone code o = false := by
  induction l with
  | nil => simp
  | cons a rest ih =>
    rw [latestOtpIdx] at h
    intro o ho
    rcases List.mem_cons.mp ho with he | hrr
    · subst he
      split at h
      · split at h
        · simp at h
        · rename_i hfalse
          simp only [Bool.not_eq_true] at hfalse
          exact hfalse
      · split at h <;> simp at h
        split at h <;> simp at h
    · split at h
      · exact ih (by assumption) o hrr
      · split at h <;> simp at h
        split at h <;> simp at h

theorem latestOtpIdx_eq_some {phone code : String} {l : List OtpCode} {i : Nat} {o : OtpCode}
    (h : latestOtpIdx phone code l = some (i, o)) :
    l[i]? = some o ∧ matchesOtp phone code o = true ∧
      ∀ o' ∈ l, matchesOtp phone code o' = true → o'.created_at ≤ o.created_at := by
  induction l generalizing i o with
  | nil => simp [latestOtpIdx] at h
  | cons a rest ih =>
    rw [latestOtpIdx] at h
    split at h
    · rename_i hrest
      split at h
      · rename_i ha
        simp only [Option.some.injEq, Prod.mk.injEq] at h
        obtain ⟨hi, ho⟩ := h
        subst ho
        refine ⟨by simp [← hi], ha, ?_⟩
        intro o' ho' hm
        rcases List.mem_cons.mp ho' with he | hrr
        · subst he; exact le_refl _
        · exact absurd hm (by simp [latestOtpIdx_eq_none hrest o' hrr])
      · simp at h
    · rename_i r hrest
      obtain ⟨j, b⟩ := r
      obtain ⟨hjb, hmb, hmaxb⟩ := ih hrest
      split at h
      · rename_i ha
        split at h
        · rename_i hgt
          simp only [Option.some.injEq, Prod.mk.injEq] at h
          obtain ⟨hi, ho⟩ := h
          subst ho
          refine ⟨by simp [← hi, hjb], hmb, ?_⟩
          intro o' ho' hm
          rcases List.mem_cons.mp ho' with he | hrr
          · subst he; exact le_of_lt hgt
          · exact hmaxb o' hrr hm
        · rename_i hgt
          simp only [Option.some.injEq, Prod.mk.injEq] at h
          obtain ⟨hi, ho⟩ := h
          subst ho
          refine ⟨by simp [← hi], ha, ?_⟩
          intro o' ho' hm
          rcases List.mem_cons.mp ho' with he | hrr
          · subst he; exact le_refl _
          · exact le_trans (hmaxb o' hrr hm) (by omega)
      · rename_i ha
        simp only [Option.some.injEq, Prod.mk.injEq] at h
        obtain ⟨hi, ho⟩ := h
        subst ho
        refine ⟨by simp [← hi, hjb], hmb, ?_⟩
        intro o' ho' hm
        rcases List.mem_cons.mp ho' with he | hrr
        · subst he; exact absurd hm (by simp [ha])
        · exact hmaxb o' hrr hm

theorem calculate_price_final_le_base (u : User) (n : Nat) :
    (calculate_price u n).2.1 ≤ (calculate_price u n).1 := by
  unfold calculate_price
  dsimp only
  split
  · calc BASE_PRICE_PER_SEAT * n * 4 / 5
        ≤ BASE_PRICE_PER_SEAT * n * 5 / 5 := Nat.div_le_div_right (by omega)
      _ = BASE_PRICE_PER_SEAT * n := Nat.mul_div_cancel _ (by norm_num)
  · exact le_refl _

theorem importRows_characterization (rows : List CsvRow) :
    ∀ (users : List User) us' c s, importRows users rows = (us', c, s) →
      ∃ new, us' = users ++ new ∧ c = new.length ∧
        ∀ u ∈ new, u.is_verified = true ∧
          (u.role = "staff" ∨ ∃ row ∈ rows, row.role = some u.role) := by
  induction rows with
  | nil =>
    intro users us' c s h
    rw [importRows] at h
    obtain ⟨h1, h2, h3⟩ : users = us' ∧ 0 = c ∧ 0 = s := by
      simpa [Prod.ext_iff] using h
    exact ⟨[], by simp [h1], by simp [← h2], by simp⟩
  | cons row rest ih =>
    intro users us' c s h
    rw [importRows] at h
    split at h
    · obtain ⟨new, h1, h2, h3⟩ := ih users us' c s h
      refine ⟨new, h1, h2, fun u hu => ⟨(h3 u hu).1, ?_⟩⟩
      rcases (h3 u hu).2 with hs | ⟨r, hr, he⟩
      · exact Or.inl hs
      · exact Or.inr ⟨r, List.mem_cons_of_mem _ hr, he⟩
    · split at h
      · rcases hrec : importRows users rest with ⟨us1, c1, s1⟩
        rw [hrec] at h
        obtain ⟨h1, h2, h3⟩ : us1 = us' ∧ c1 = c ∧ s1 + 1 = s := by
          simpa [Prod.ext_iff] using h
        obtain ⟨new, g1, g2, g3⟩ := ih users us1 c1 s1 hrec
        refine ⟨new, by rw [← h1, g1], by rw [← h2, g2], fun u hu => ⟨(g3 u hu).1, ?_⟩⟩
        rcases (g3 u hu).2 with hs | ⟨r, hr, he⟩
        · exact Or.inl hs
        · exact Or.inr ⟨r, List.mem_cons_of_mem _ hr, he⟩
      · rcases hrec : importRows (users ++ [mkImportUser users row]) rest with ⟨us1, c1, s1⟩
        rw [hrec] at h
        obtain ⟨h1, h2, h3⟩ : us1 = us' ∧ c1 + 1 = c ∧ s1 = s := by
          simpa [Prod.ext_iff] using h
        obtain ⟨new, g1, g2, g3⟩ := ih (users ++ [mkImportUser users row]) us1 c1 s1 hrec
        refine ⟨mkImportUser users row :: new, ?_, by simp [List.length_cons]; omega, ?_⟩
        · rw [← h1, g1]; simp
        · intro u hu
          rcases List.mem_cons.mp hu with he | hn
          · subst he
            refine ⟨rfl, ?_⟩
            cases hrole : row.role with
            | none => exact Or.inl (by simp [mkImportUser, hrole])
            | some rr =>
              exact Or.inr ⟨row, List.mem_cons_self row rest,
                by simp [mkImportUser, hrole]⟩
          · refine ⟨(g3 u hn).1, ?_⟩
            rcases (g3 u hn).2 with hs | ⟨r, hr, hee⟩
            · exact Or.inl hs
            · exact Or.inr ⟨r, List.mem_cons_of_mem _ hr, hee⟩

theorem create_flight_preserves_inv (airports : List String) (db : DB) (req : FlightReq)
    (hts : ∀ v, req.total_seats = some v → 0 ≤ v) (hinv : dbFlightInv db) :
    dbFlightInv (applyOp airports db (.createFlight req)) := by
  rw [applyOp]
  cases hcf : create_flight airports db req with
  | error e => exact hinv
  | ok r =>
    rw [create_flight] at hcf
    split at hcf
    · simp at hcf
    · rename_i hok
      split at hcf
      · simp at hcf
      · split at hcf
        · simp at hcf
        · simp only [Except.ok.injEq] at hcf
          intro f hf
          rw [← hcf] at hf
          simp only [List.mem_append, List.mem_singleton] at hf
          rcases hf with hf | hf
          · exact hinv f hf
          · subst hf
            have hok' : flightReqOk req = true := by
              revert hok; cases flightReqOk req <;> simp
            have hsome : ∃ v, req.total_seats = some v := by
              cases hv : req.total_seats with
              | none => simp [flightReqOk, truthyInt, hv] at hok'
              | some v => exact ⟨v, rfl⟩
            obtain ⟨v, hv⟩ := hsome
            have hv0 : 0 ≤ v := hts v hv
            constructor <;> simp [hv, Option.getD]
            omega

theorem create_booking_preserves_inv (db : DB) (req : BookingReq) (hinv : dbFlightInv db)
    (airports : List String) :
    dbFlightInv (applyOp airports db (.createBooking req)) := by
  rw [applyOp]
  cases hcb : create_booking db req with
  | error e => exact hinv
  | ok r =>
    rw [create_booking] at hcb
    split at hcb
    · simp at hcb
    · rename_i user hu
      split at hcb
      · simp at hcb
      · rename_i i flight hfind
        split at hcb
        · simp at hcb
        · split at hcb
          · simp at hcb
          · rename_i hn hs
            simp only [Except.ok.injEq] at hcb
            intro f hf
            rw [← hcb] at hf
            simp only at hf
            rcases List.mem_or_eq_of_mem_set hf with hmem | heq
            · exact hinv f hmem
            · subst heq
              have hfl : flight ∈ db.flights :=
                List.getElem?_mem (findWithIdx_eq_some hfind).1
              have hfi := hinv flight hfl
              obtain ⟨h1, h2⟩ := hfi
              constructor <;> simp only <;> omega

theorem latestOtpIdx_none_of_no_match {phone code : String} {l : List OtpCode}
    (h : ∀ o ∈ l, matchesOtp phone code o = false) :
    latestOtpIdx phone code l = none := by
  induction l with
  | nil => rfl
  | cons a rest ih =>
    rw [latestOtpIdx, ih (fun o ho => h o (List.mem_cons_of_mem a ho))]
    simp [h a (List.mem_cons_self a rest)]

/-- C1 (amended): the seat invariant `0 ≤ available_seats ≤ total_seats` is
preserved by every sequence of createFlight requests whose seat total is
nonnegative and createBooking requests; updateFlight requests are excluded,
because the source re-applies no consistency check there. -/
theorem seat_invariant_reachable (airports : List String) (ops : List Op) :
    ∀ db : DB, (∀ op ∈ ops, seatSafeOp op) → dbFlightInv db →
      dbFlightInv (runOps airports db ops) := by
  induction ops with
  | nil => intro db _ hinv; exact hinv
  | cons op rest ih =>
    intro db hops hinv
    have hop := hops op (List.mem_cons_self op rest)
    have hrest : ∀ o ∈ rest, seatSafeOp o := fun o ho => hops o (List.mem_cons_of_mem op ho)
    have hstep : dbFlightInv (applyOp airports db op) := by
      cases op with
      | createFlight req =>
        refine create_flight_preserves_inv airports db req ?_ hinv
        intro v hv
        rw [seatSafeOp, hv] at hop
        simpa using hop
      | updateFlight fid req => exact hop.elim
      | createBooking req => exact create_booking_preserves_inv db req hinv airports
    exact ih (applyOp airports db op) hrest hstep

/-- C1 witness: from a store satisfying the invariant, creating the scenario
flight and booking three seats keeps the invariant. -/
theorem seat_invariant_reachable_witness :
    dbFlightInv (runOps sampleAirports dbW
      [Op.createFlight delBomReq,
       Op.createBooking { user_id := 1, flight_id := 2, num_seats := some 3 }]) :=
  seat_invariant_reachable sampleAirports _ dbW (by decide) (by decide)

/-- C1 counterexample: the claim as stated fails — an updateFlight request
may set `available_seats` above `total_seats`, and a createFlight request
with a negative (truthy) seat total creates a flight with negative
`available_seats`.  Both end states are reachable yet violate the invariant. -/
theorem seat_invariant_counterexample :
    ¬ dbFlightInv (runOps sampleAirports emptyDB
      [Op.createFlight delBomReq,
       Op.updateFlight 1 { noFlightUpdate with available_seats := some 11 }]) ∧
    ¬ dbFlightInv (runOps sampleAirports emptyDB
      [Op.createFlight { delBomReq with total_seats := some (-5) }]) := by
  constructor <;> decide

/-- C2: a successful createBooking decrements the flight's available seats by
the requested seat count, appends exactly one Booking with status
"Confirmed", prices taken from the pricing engine with
`final_price ≤ base_price`, and changes nothing else in the store — the
booking insert and the seat decrement land together or not at all. -/
theorem booking_success_spec (db : DB) (req : BookingReq) (b : Booking) (db' : DB)
    (user : User) (i : Nat) (flight : Flight)
    (hu : db.users.find? (fun u => u.id == req.user_id) = some user)
    (hf : findWithIdx (fun f => f.id == req.flight_id) db.flights = some (i, flight))
    (hok : create_booking db req = .ok (b, db')) :
    b.status = "Confirmed" ∧
    b.num_seats = req.num_seats.getD 1 ∧
    (b.base_price, b.final_price, b.discount_reason) =
      calculate_price user (req.num_seats.getD 1).toNat ∧
    b.final_price ≤ b.base_price ∧
    db'.flights[i]? =
      some { flight with available_seats := flight.available_seats - req.num_seats.getD 1 } ∧
    (∀ j, j ≠ i → db'.flights[j]? = db.flights[j]?) ∧
    db'.bookings = db.bookings ++ [b] ∧
    db'.users = db.users ∧ db'.otps = db.otps := by
  simp only [create_booking, hu, hf] at hok
  split at hok
  · simp at hok
  · split at hok
    · simp at hok
    · simp only [Except.ok.injEq, Prod.mk.injEq] at hok
      obtain ⟨hb, hdb⟩ := hok
      subst hb
      subst hdb
      have hlt : i < db.flights.length := by
        have := (findWithIdx_eq_some hf).1
        exact (List.getElem?_eq_some.mp this).1
      refine ⟨rfl, rfl, by simp, calculate_price_final_le_base user _, ?_, ?_, rfl, rfl, rfl⟩
      · exact List.getElem?_set_self hlt
      · intro j hj
        exact List.getElem?_set_ne (Ne.symm hj)

/-- C2 witness: Alice books three seats on the scenario flight: seats drop
from ten to seven and one Confirmed booking at 15000/15000 is appended. -/
theorem booking_success_spec_witness :
    create_booking dbW { user_id := 1, flight_id := 1, num_seats := some 3 } =
      .ok (booking3, dbWAfter) ∧
    booking3.final_price ≤ booking3.base_price ∧
    dbWAfter.flights[0]? =
      some { flight10 with available_seats := flight10.available_seats - 3 } :=
  ⟨by decide,
   (booking_success_spec dbW { user_id := 1, flight_id := 1, num_seats := some 3 }
      booking3 dbWAfter alice 0 flight10 (by decide) (by decide) (by decide)).2.2.2.1,
   by
    have h := booking_success_spec dbW { user_id := 1, flight_id := 1, num_seats := some 3 }
      booking3 dbWAfter alice 0 flight10 (by decide) (by decide) (by decide)
    simpa using h.2.2.2.2.1⟩

/-- C3: with user and flight present, createBooking answers
InsufficientSeatsError when fewer seats are available than requested (seat
count at least one) and ValidationError when the seat count is nonpositive;
every createBooking error leaves the store exactly as it was — no booking
row, no seat change. -/
theorem booking_failure_spec :
    (∀ (db : DB) (req : BookingReq) (user : User) (i : Nat) (flight : Flight),
      db.users.find? (fun u => u.id == req.user_id) = some user →
      findWithIdx (fun f => f.id == req.flight_id) db.flights = some (i, flight) →
      (1 ≤ req.num_seats.getD 1 → flight.available_seats < req.num_seats.getD 1 →
        create_booking db req = .error .insufficientSeats) ∧
      (req.num_seats.getD 1 ≤ 0 →
        create_booking db req = .error .validationError)) ∧
    (∀ (airports : List String) (db : DB) (req : BookingReq) (e : ApiError),
      create_booking db req = .error e →
      applyOp airports db (.createBooking req) = db) := by
  constructor
  · intro db req user i flight hu hf
    constructor
    · intro h1 h2
      simp only [create_booking, hu, hf]
      rw [if_neg (by omega), if_pos h2]
    · intro h0
      simp only [create_booking, hu, hf]
      rw [if_pos h0]
  · intro airports db req e herr
    simp only [applyOp, herr]

/-- C3 witness: on the seven-seat state of the scenario, booking eight more
fails with InsufficientSeatsError and the store is unchanged; booking zero
seats fails with ValidationError. -/
theorem booking_failure_spec_witness :
    create_booking dbWAfter { user_id := 1, flight_id := 1, num_seats := some 8 } =
      .error .insufficientSeats ∧
    create_booking dbWAfter { user_id := 1, flight_id := 1, num_seats := some 0 } =
      .error .validationError ∧
    applyOp sampleAirports dbWAfter
      (.createBooking { user_id := 1, flight_id := 1, num_seats := some 8 }) = dbWAfter :=
  ⟨(booking_failure_spec.1 dbWAfter { user_id := 1, flight_id := 1, num_seats := some 8 }
      alice 0 { flight10 with available_seats := 7 } (by decide) (by decide)).1
      (by decide) (by decide),
   (booking_failure_spec.1 dbWAfter { user_id := 1, flight_id := 1, num_seats := some 0 }
      alice 0 { flight10 with available_seats := 7 } (by decide) (by decide)).2 (by decide),
   booking_failure_spec.2 sampleAirports dbWAfter
      { user_id := 1, flight_id := 1, num_seats := some 8 } .insufficientSeats (by decide)⟩

/-- C9: when `num_seats` is absent from the request body, createBooking books
exactly one seat — the created booking records one seat and the flight loses
one seat. -/
theorem booking_default_one_seat (db : DB) (req : BookingReq) (user : User) (i : Nat)
    (flight : Flight)
    (hu : db.users.find? (fun u => u.id == req.user_id) = some user)
    (hf : findWithIdx (fun f => f.id == req.flight_id) db.flights = some (i, flight))
    (hn : req.num_seats = none)
    (ha : 1 ≤ flight.available_seats) :
    ∃ b db', create_booking db req = .ok (b, db') ∧ b.num_seats = 1 ∧
      db'.flights[i]? = some { flight with available_seats := flight.available_seats - 1 } := by
  have hlt : i < db.flights.length := by
    have := (findWithIdx_eq_some hf).1
    exact (List.getElem?_eq_some.mp this).1
  simp only [create_booking, hu, hf, hn, Option.getD_none]
  rw [if_neg (by omega), if_neg (by omega)]
  exact ⟨_, _, rfl, rfl, List.getElem?_set_self hlt⟩

/-- C9 witness: Alice's request without a seat count books one seat on the
scenario flight. -/
theorem booking_default_one_seat_witness :
    (1 : Int) ≤ flight10.available_seats ∧
    ∃ b db', create_booking dbW { user_id := 1, flight_id := 1, num_seats := none } =
      .ok (b, db') ∧ b.num_seats = 1 ∧
      db'.flights[0]? = some { flight10 with available_seats := flight10.available_seats - 1 } :=
  ⟨by decide,
   booking_default_one_seat dbW { user_id := 1, flight_id := 1, num_seats := none }
     alice 0 flight10 (by decide) (by decide) (by decide) (by decide)⟩

/-- C4: the pricing engine is the pure function `calculate_price`: for a user
whose lowercased email ends in ".edu" it returns base `5000·n` and final
`floor(5000·n·0.8) = 5000·n·4/5 = 4000·n` with the fixed discount-reason
string; for every other user it returns base = final = `5000·n` and no
reason. -/
theorem calculate_price_spec (u : User) (n : Nat) :
    (pyEndsWith (pyLower u.email) ".edu" = true →
      calculate_price u n = (5000 * n, 5000 * n * 4 / 5, some studentDiscountReason) ∧
      5000 * n * 4 / 5 = 4000 * n) ∧
    (pyEndsWith (pyLower u.email) ".edu" = false →
      calculate_price u n = (5000 * n, 5000 * n, none)) := by
  constructor
  · intro h
    have hdiv : 5000 * n * 4 / 5 = 4000 * n := by
      have h4 : 5000 * n * 4 = 4000 * n * 5 := by ring
      rw [h4, Nat.mul_div_cancel _ (by norm_num)]
    refine ⟨?_, hdiv⟩
    unfold calculate_price BASE_PRICE_PER_SEAT
    rw [if_pos h]
  · intro h
    unfold calculate_price BASE_PRICE_PER_SEAT
    rw [if_neg (by simp [h])]

/-- C4 witness: Bob's student email gets 15000 discounted to 12000 for three
seats; Alice's email pays base price. -/
theorem calculate_price_spec_witness :
    calculate_price bobEdu 3 = (5000 * 3, 5000 * 3 * 4 / 5, some studentDiscountReason) ∧
    5000 * 3 * 4 / 5 = 4000 * 3 ∧
    calculate_price alice 3 = (5000 * 3, 5000 * 3, none) :=
  ⟨((calculate_price_spec bobEdu 3).1 (by decide)).1,
   ((calculate_price_spec bobEdu 3).1 (by decide)).2,
   (calculate_price_spec alice 3).2 (by decide)⟩

/-- C7: createFlight validates in order — missing or falsy required fields
give ValidationError, an unknown source or destination gives
InvalidAirportError, equal source and destination give RouteError — and on
success the stored flight starts with `available_seats = total_seats` and
status defaulting to "On Time", appended to the flight table with the rest
of the store untouched. -/
theorem create_flight_spec :
    (∀ (airports : List String) (db : DB) (req : FlightReq),
      flightReqOk req = false →
      create_flight airports db req = .error .validationError) ∧
    (∀ (airports : List String) (db : DB) (req : FlightReq),
      flightReqOk req = true →
      (airports.contains (req.source.getD "") = false ∨
        airports.contains (req.destination.getD "") = false) →
      create_flight airports db req = .error .invalidAirport) ∧
    (∀ (airports : List String) (db : DB) (req : FlightReq),
      flightReqOk req = true →
      airports.contains (req.source.getD "") = true →
      airports.contains (req.destination.getD "") = true →
      req.source.getD "" = req.destination.getD "" →
      create_flight airports db req = .error .routeError) ∧
    (∀ (airports : List String) (db : DB) (req : FlightReq),
      flightReqOk req = true →
      airports.contains (req.source.getD "") = true →
      airports.contains (req.destination.getD "") = true →
      req.source.getD "" ≠ req.destination.getD "" →
      ∃ f db', create_flight airports db req = .ok (f, db') ∧
        f.available_seats = f.total_seats ∧
        f.status = req.status.getD "On Time" ∧
        (req.status = none → f.status = "On Time") ∧
        db'.flights = db.flights ++ [f] ∧
        db'.users = db.users ∧ db'.bookings = db.bookings ∧ db'.otps = db.otps) := by
  refine ⟨?_, ?_, ?_, ?_⟩
  · intro airports db req h
    rw [create_flight, if_pos (by simp [h])]
  · intro airports db req hok hbad
    have hcond : (!(airports.contains (req.source.getD "")) ||
        !(airports.contains (req.destination.getD ""))) = true := by
      rcases hbad with h | h <;> rw [h] <;> simp
    rw [create_flight, if_neg (by simp [hok]), if_pos hcond]
  · intro airports db req hok hs hd heq
    have hcond : (!(airports.contains (req.source.getD "")) ||
        !(airports.contains (req.destination.getD ""))) = false := by
      rw [hs, hd]; rfl
    rw [create_flight, if_neg (by simp [hok]), if_neg (by rw [hcond]; simp),
      if_pos (by simp [heq])]
  · intro airports db req hok hs hd hne
    have hcond : (!(airports.contains (req.source.getD "")) ||
        !(airports.contains (req.destination.getD ""))) = false := by
      rw [hs, hd]; rfl
    rw [create_flight, if_neg (by simp [hok]), if_neg (by rw [hcond]; simp),
      if_neg (by simp [hne])]
    exact ⟨_, _, rfl, rfl, rfl, fun h => by simp [h], rfl, rfl, rfl, rfl⟩

/-- C7 witness: the scenario request creates DEL to BOM with ten available of
ten total and status "On Time"; a same-route request fails with RouteError; a
bad airport code fails with InvalidAirportError; a missing field fails with
ValidationError. -/
theorem create_flight_spec_witness :
    (∃ f db', create_flight sampleAirports emptyDB delBomReq = .ok (f, db') ∧
      f.available_seats = f.total_seats ∧
      f.status = delBomReq.status.getD "On Time" ∧
      (delBomReq.status = none → f.status = "On Time") ∧
      db'.flights = emptyDB.flights ++ [f] ∧
      db'.users = emptyDB.users ∧ db'.bookings = emptyDB.bookings ∧
      db'.otps = emptyDB.otps) ∧
    create_flight sampleAirports emptyDB { delBomReq with destination := some "DEL" } =
      .error .routeError ∧
    create_flight sampleAirports emptyDB { delBomReq with source := some "XXX" } =
      .error .invalidAirport ∧
    create_flight sampleAirports emptyDB { delBomReq with code := none } =
      .error .validationError :=
  ⟨create_flight_spec.2.2.2 sampleAirports emptyDB delBomReq
      (by decide) (by decide) (by decide) (by decide),
   create_flight_spec.2.2.1 sampleAirports emptyDB { delBomReq with destination := some "DEL" }
      (by decide) (by decide) (by decide) (by decide),
   create_flight_spec.2.1 sampleAirports emptyDB { delBomReq with source := some "XXX" }
      (by decide) (Or.inl (by decide)),
   create_flight_spec.1 sampleAirports emptyDB { delBomReq with code := none } (by decide)⟩

/-- C5: an OTP code is consumable at most once — when every OtpCode record
matching the submitted phone and code is already marked used, an otherwise
well-formed registration fails with InvalidOtpError; a successful
registration marks exactly one most-recently-created unused matching record
as used, leaving every other OTP row unchanged; and a registration whose
email already exists fails with DuplicateEmailError. -/
theorem otp_single_use_spec :
    (∀ (db : DB) (req : RegisterReq),
      registerReqOk req = true →
      db.users.any (fun u => u.email == req.email.getD "") = false →
      (∀ o ∈ db.otps, o.phone = req.phone.getD "" → o.code = req.otp.getD "" →
        o.is_used = true) →
      register db req = .error .invalidOtp) ∧
    (∀ (db : DB) (req : RegisterReq) (u : User) (db' : DB),
      register db req = .ok (u, db') →
      ∃ (i : Nat) (o : OtpCode), db.otps[i]? = some o ∧
        o.phone = req.phone.getD "" ∧ o.code = req.otp.getD "" ∧ o.is_used = false ∧
        (∀ o' ∈ db.otps, o'.phone = req.phone.getD "" → o'.code = req.otp.getD "" →
          o'.is_used = false → o'.created_at ≤ o.created_at) ∧
        db'.otps[i]? = some { o with is_used := true } ∧
        (∀ j, j ≠ i → db'.otps[j]? = db.otps[j]?)) ∧
    (∀ (db : DB) (req : RegisterReq),
      registerReqOk req = true →
      (∃ u ∈ db.users, u.email = req.email.getD "") →
      register db req = .error .duplicateEmail) := by
  refine ⟨?_, ?_, ?_⟩
  · intro db req h1 h2 h3
    have hno : ∀ o ∈ db.otps,
        matchesOtp (req.phone.getD "") (req.otp.getD "") o = false := by
      intro o ho
      by_cases hp : o.phone = req.phone.getD ""
      · by_cases hc : o.code = req.otp.getD ""
        · simp [matchesOtp, hp, hc, h3 o ho hp hc]
        · simp [matchesOtp, hc]
      · simp [matchesOtp, hp]
    rw [register, if_neg (by simp [h1]), if_neg (by rw [h2]; simp),
      latestOtpIdx_none_of_no_match hno]
  · intro db req u db' hok
    rw [register] at hok
    split at hok
    · simp at hok
    · split at hok
      · simp at hok
      · cases hlat : latestOtpIdx (req.phone.getD "") (req.otp.getD "") db.otps with
        | none => rw [hlat] at hok; simp at hok
        | some r =>
          obtain ⟨i, o⟩ := r
          rw [hlat] at hok
          cases hage : parse_age req.age with
          | error e => rw [hage] at hok; simp at hok
          | ok age =>
            rw [hage] at hok
            simp only [Except.ok.injEq, Prod.mk.injEq] at hok
            obtain ⟨hu, hdb⟩ := hok
            subst hdb
            obtain ⟨hget, hmatch, hmax⟩ := latestOtpIdx_eq_some hlat
            have hlt : i < db.otps.length := (List.getElem?_eq_some.mp hget).1
            have hm : o.phone = req.phone.getD "" ∧ o.code = req.otp.getD "" ∧
                o.is_used = false := by
              simpa [matchesOtp, and_assoc] using hmatch
            refine ⟨i, o, hget, hm.1, hm.2.1, hm.2.2, ?_, ?_, ?_⟩
            · intro o' ho' hp hc hus
              exact hmax o' ho' (by simp [matchesOtp, hp, hc, hus])
            · simpa using List.getElem?_set_self hlt
            · intro j hj
              simpa using List.getElem?_set_ne (Ne.symm hj)
  · intro db req h1 hdup
    obtain ⟨u, hu, he⟩ := hdup
    have hany : db.users.any (fun v => v.email == req.email.getD "") = true := by
      rw [List.any_eq_true]
      exact ⟨u, hu, by simp [he]⟩
    rw [register, if_neg (by simp [h1]), if_pos hany]

/-- C5 witness: registering against a consumed code fails with
InvalidOtpError; a fresh registration consumes the latest matching unused
record; a second registration with an existing email fails with
DuplicateEmailError. -/
theorem otp_single_use_spec_witness :
    register dbOtpUsed regReq = .error .invalidOtp ∧
    (∃ (i : Nat) (o : OtpCode), dbOtp.otps[i]? = some o ∧
      o.phone = regReq.phone.getD "" ∧ o.code = regReq.otp.getD "" ∧ o.is_used = false ∧
      (∀ o' ∈ dbOtp.otps, o'.phone = regReq.phone.getD "" → o'.code = regReq.otp.getD "" →
        o'.is_used = false → o'.created_at ≤ o.created_at) ∧
      dbOtpAfter.otps[i]? = some { o with is_used := true } ∧
      (∀ j, j ≠ i → dbOtpAfter.otps[j]? = dbOtp.otps[j]?)) ∧
    register dbAlice { regReq with email := some "alice@mail.com" } =
      .error .duplicateEmail :=
  ⟨otp_single_use_spec.1 dbOtpUsed regReq (by decide) (by decide) (by decide),
   otp_single_use_spec.2.1 dbOtp regReq carolUser dbOtpAfter (by decide),
   otp_single_use_spec.2.2 dbAlice { regReq with email := some "alice@mail.com" }
     (by decide) ⟨alice, by decide, by decide⟩⟩

/-- C6 counterexample: the claim as stated fails — importEmployees copies the
row's role verbatim, so a CSV row naming the admin role creates an admin
user whose email is not the designated owner email. -/
theorem admin_role_counterexample :
    import_employees emptyDB (some "employees.csv") (some [rowAdmin]) =
      .ok ((1, 0), dbMallory) ∧
    malloryUser.role = "admin" ∧
    pyLower malloryUser.email ≠ pyLower OWNER_ADMIN_EMAIL :=
  ⟨by decide, by decide, by decide⟩

/-- C6 (amended): register assigns the admin role exactly to the configured
owner email (case-insensitively) and every other registrant becomes a
passenger; importEmployees instead stores each row's role verbatim,
defaulting to "staff" when the column is absent — so only the import path
can mint an admin with a different email. -/
theorem admin_role_policy :
    (∀ (db : DB) (req : RegisterReq) (u : User) (db' : DB),
      register db req = .ok (u, db') →
      ((u.role = "admin" ↔ pyLower u.email = pyLower OWNER_ADMIN_EMAIL) ∧
        (u.role = "admin" ∨ u.role = "passenger"))) ∧
    (∀ (db : DB) (path : Option String) (rows : List CsvRow) (res : (Nat × Nat) × DB),
      import_employees db path (some rows) = .ok res →
      ∀ u ∈ res.2.users, u ∈ db.users ∨ u.role = "staff" ∨
        ∃ row ∈ rows, row.role = some u.role) := by
  constructor
  · intro db req u db' hok
    rw [register] at hok
    split at hok
    · simp at hok
    · split at hok
      · simp at hok
      · cases hlat : latestOtpIdx (req.phone.getD "") (req.otp.getD "") db.otps with
        | none => rw [hlat] at hok; simp at hok
        | some r =>
          obtain ⟨i, o⟩ := r
          rw [hlat] at hok
          cases hage : parse_age req.age with
          | error e => rw [hage] at hok; simp at hok
          | ok age =>
            rw [hage] at hok
            simp only [Except.ok.injEq, Prod.mk.injEq] at hok
            obtain ⟨hu, hdb⟩ := hok
            subst hu
            cases hadm : (pyLower (req.email.getD "") == pyLower OWNER_ADMIN_EMAIL) with
            | true =>
              have heq : pyLower (req.email.getD "") = pyLower OWNER_ADMIN_EMAIL := by
                simpa using hadm
              exact ⟨by simp [hadm, heq], by left; simp [hadm]⟩
            | false =>
              have hne : pyLower (req.email.getD "") ≠ pyLower OWNER_ADMIN_EMAIL := by
                simpa using hadm
              exact ⟨by simp [hadm, hne], by right; simp [hadm]⟩
  · intro db path rows res hok
    rw [import_employees] at hok
    split at hok
    · simp at hok
    · simp only [Except.ok.injEq] at hok
      rcases hrec : importRows db.users rows with ⟨us1, c1, s1⟩
      rw [hrec] at hok
      obtain ⟨new, hnew, hlen, hprops⟩ := importRows_characterization rows db.users us1 c1 s1 hrec
      subst hok
      intro u hu
      simp only [hnew, List.mem_append] at hu
      rcases hu with hu | hu
      · exact Or.inl hu
      · rcases (hprops u hu).2 with hs | hrow
        · exact Or.inr (Or.inl hs)
        · exact Or.inr (Or.inr hrow)

/-- C6 witness: Carol's registration yields a passenger whose email differs
from the owner email, and in the Mallory import every created user's role
comes from its CSV row. -/
theorem admin_role_policy_witness :
    ((carolUser.role = "admin" ↔ pyLower carolUser.email = pyLower OWNER_ADMIN_EMAIL) ∧
      (carolUser.role = "admin" ∨ carolUser.role = "passenger")) ∧
    (∀ u ∈ dbMallory.users, u ∈ emptyDB.users ∨ u.role = "staff" ∨
      ∃ row ∈ [rowAdmin], row.role = some u.role) :=
  ⟨admin_role_policy.1 dbOtp regReq carolUser dbOtpAfter (by decide),
   admin_role_policy.2 emptyDB (some "employees.csv") [rowAdmin]
     ((1, 0), dbMallory) (by decide)⟩

/-- C8 counterexample: the claim as stated fails on the error kind — a
missing import file is answered with the HTTP 400 "file not found" response,
not the 404 NotFoundError of the spec's taxonomy. -/
theorem import_missing_file_counterexample :
    import_employees emptyDB (some "employees.csv") none = .error .fileNotFound ∧
    ApiError.fileNotFound.isNotFound = false ∧
    ApiError.fileNotFound.status = 400 ∧
    ApiError.notFound.status = 404 :=
  ⟨by decide, by decide, by decide, by decide⟩

/-- C8 (amended): importEmployees ignores rows missing name or email without
counting them, counts rows whose email already exists as skipped without
creating them, creates every remaining row verified (password defaulting to
the fixed placeholder and role to "staff" when the column is absent), and
reports the created and skipped counts; a missing source file is answered
with a 400-status error (not the 404 NotFoundError the spec's taxonomy
assigns). -/
theorem import_employees_spec :
    (∀ (db : DB) (path : Option String), truthyStr path = true →
      import_employees db path none = .error .fileNotFound ∧
      ApiError.fileNotFound.status = 400) ∧
    (∀ (db : DB) (path : Option String) (rows : List CsvRow) (res : (Nat × Nat) × DB),
      import_employees db path (some rows) = .ok res →
      ∃ new, res.2.users = db.users ++ new ∧ res.1.1 = new.length ∧
        ∀ u ∈ new, u.is_verified = true) ∧
    (∀ (db : DB) (path : Option String) (row : CsvRow) (rest : List CsvRow),
      (truthyStr row.name = false ∨ truthyStr row.email = false) →
      import_employees db path (some (row :: rest)) = import_employees db path (some rest)) ∧
    (∀ (db : DB) (path : Option String) (row : CsvRow) (rest : List CsvRow)
        (c s : Nat) (db' : DB),
      truthyStr row.name = true → truthyStr row.email = true →
      db.users.any (fun u => u.email == row.email.getD "") = true →
      import_employees db path (some rest) = .ok ((c, s), db') →
      import_employees db path (some (row :: rest)) = .ok ((c, s + 1), db')) ∧
    (∀ (db : DB) (path : Option String) (row : CsvRow),
      truthyStr path = true →
      truthyStr row.name = true → truthyStr row.email = true →
      db.users.any (fun u => u.email == row.email.getD "") = false →
      row.password = none → row.role = none →
      import_employees db path (some [row]) =
        .ok ((1, 0), { db with users := db.users ++
          [{ id := nextId (db.users.map (fun u => u.id)),
             name := row.name.getD "", email := row.email.getD "",
             password_hash := generate_password_hash "password123",
             role := "staff", age := none, phone := none, is_verified := true }] })) := by
  refine ⟨?_, ?_, ?_, ?_, ?_⟩
  · intro db path hp
    exact ⟨by rw [import_employees, if_neg (by simp [hp])], rfl⟩
  · intro db path rows res hok
    rw [import_employees] at hok
    split at hok
    · simp at hok
    · simp only [Except.ok.injEq] at hok
      rcases hrec : importRows db.users rows with ⟨us1, c1, s1⟩
      rw [hrec] at hok
      obtain ⟨new, hnew, hlen, hprops⟩ := importRows_characterization rows db.users us1 c1 s1 hrec
      subst hok
      exact ⟨new, hnew, hlen.symm ▸ rfl, fun u hu => (hprops u hu).1⟩
  · intro db path row rest hbad
    have hrows : importRows db.users (row :: rest) = importRows db.users rest := by
      rw [importRows, if_pos (by rcases hbad with h | h <;> rw [h] <;> simp)]
    rw [import_employees, import_employees, hrows]
  · intro db path row rest c s db' h1 h2 hdup hok
    rw [import_employees] at hok ⊢
    split at hok
    · simp at hok
    · rename_i hpath
      rw [if_neg hpath]
      have hrows : importRows db.users (row :: rest) =
          ((importRows db.users rest).1, (importRows db.users rest).2.1,
            (importRows db.users rest).2.2 + 1) := by
        rw [importRows, if_neg (by rw [h1, h2]; simp), if_pos hdup]
      rw [hrows]
      rcases hrec : importRows db.users rest with ⟨us1, c1, s1⟩
      rw [hrec] at hok
      simp only [Except.ok.injEq, Prod.mk.injEq] at hok
      obtain ⟨⟨hc, hs⟩, hdb⟩ := hok
      simp [hc, hs, hdb]
  · intro db path row hp h1 h2 hdup hpw hrole
    have hrows : importRows db.users [row] =
        (db.users ++ [mkImportUser db.users row], 1, 0) := by
      rw [importRows, if_neg (by rw [h1, h2]; simp), if_neg (by rw [hdup]; simp)]
      rw [importRows]
    rw [import_employees, if_neg (by simp [hp]), hrows]
    simp [mkImportUser, hpw, hrole]

/-- C8 witness: a missing file gives the 400 response; importing two fresh
rows and one duplicate over Alice creates two verified users and counts one
skip; a row without a name is ignored; and a role-less, password-less row
gets the staff role and the placeholder password. -/
theorem import_employees_spec_witness :
    (import_employees dbAlice (some "employees.csv") none = .error .fileNotFound ∧
      ApiError.fileNotFound.status = 400) ∧
    (∃ new, importScenarioResult.2.users = dbAlice.users ++ new ∧
      importScenarioResult.1.1 = new.length ∧
      ∀ u ∈ new, u.is_verified = true) ∧
    import_employees dbAlice (some "employees.csv")
        (some ({ rowCarl with name := none } :: importScenarioRows)) =
      import_employees dbAlice (some "employees.csv") (some importScenarioRows) ∧
    import_employees dbAlice (some "employees.csv") (some [rowCarl]) =
      .ok ((1, 0), { dbAlice with users := dbAlice.users ++
        [{ id := 2, name := "Carl", email := "carl@mail.com",
           password_hash := generate_password_hash "password123",
           role := "staff", age := none, phone := none, is_verified := true }] }) := by
  refine ⟨?_, ?_, ?_, ?_⟩
  · exact import_employees_spec.1 dbAlice (some "employees.csv") (by decide)
  · exact import_employees_spec.2.1 dbAlice (some "employees.csv") importScenarioRows
      importScenarioResult (by decide)
  · exact import_employees_spec.2.2.1 dbAlice (some "employees.csv")
      { rowCarl with name := none } importScenarioRows (Or.inl (by decide))
  · have h := import_employees_spec.2.2.2.2 dbAlice (some "employees.csv") rowCarl
      (by decide) (by decide) (by decide) (by decide) (by decide) (by decide)
    simpa using h

/-- C10: register is atomic on failure — every failing register call leaves
the store exactly as it was, so no User row appears and no OtpCode row is
persisted as used; in particular, an age-parse failure, which in the source
happens after the in-session `otp.is_used = True` mutation, leaves the
matching OTP unconsumed: retrying the same request with the age field
dropped still succeeds. -/
theorem register_failure_atomic :
    (∀ (db : DB) (req : RegisterReq) (e : ApiError),
      register db req = .error e → registerState db req = db) ∧
    (∀ (db : DB) (req : RegisterReq) (i : Nat) (o : OtpCode),
      registerReqOk req = true →
      db.users.any (fun u => u.email == req.email.getD "") = false →
      latestOtpIdx (req.phone.getD "") (req.otp.getD "") db.otps = some (i, o) →
      req.age = some .bad →
      register db req = .error .validationError ∧
      registerState db req = db ∧
      ∃ u db', register db { req with age := none } = .ok (u, db')) := by
  constructor
  · intro db req e herr
    rw [registerState, herr]
  · intro db req i o h1 h2 hlat hage
    have herr : register db req = .error .validationError := by
      rw [register, if_neg (by simp [h1]), if_neg (by rw [h2]; simp), hlat, hage]
      rfl
    refine ⟨herr, by rw [registerState, herr], ?_⟩
    rw [register]
    rw [if_neg (by simp [registerReqOk] at h1 ⊢; simp [h1]),
      if_neg (by rw [h2]; simp), hlat]
    exact ⟨_, _, rfl⟩

/-- C10 witness: Carol's registration with an unparseable age fails with
ValidationError, changes nothing, and the same request without the age field
then succeeds — the OTP was not consumed by the failure. -/
theorem register_failure_atomic_witness :
    register dbOtp { regReq with age := some .bad } = .error .validationError ∧
    registerState dbOtp { regReq with age := some .bad } = dbOtp ∧
    (∃ u db', register dbOtp { regReq with age := none } = .ok (u, db')) :=
  register_failure_atomic.2 dbOtp { regReq with age := some .bad } 0 otp1
    (by decide) (by decide) (by decide) (by decide)
